import Mathlib

/-
Verification development for the movie-catalog backend
(`backend/app`: core entities, factories, use case, services,
persistence models, repositories and unit of work).

The Python source is shallowly embedded:
* Python UUID strings are modelled as opaque numeric identifiers drawn
  from an explicit fresh-id supply (`supply : Nat`), since the code only
  ever compares identifiers for equality.
* `bytes` values are modelled as `List Nat`, dates as `String`.
* Exceptions are modelled with `Except` / explicit error components.
* The relational database visible to the repositories is modelled as the
  lists of committed rows (`DB`); repository lookups read it, and writes
  become durable only on commit.
-/

namespace Netflix

/-- Python `bytes`, modelled as a list of byte values. -/
abbrev Bytes := List Nat

/-- Python runtime errors that the embedded code can raise. -/
inductive PyErr where
  /-- `TypeError`, e.g. a call missing a required argument or passing an
  unexpected keyword argument. -/
  | typeError
  /-- `UnboundLocalError`: a local variable read before assignment. -/
  | unboundLocalError
  /-- `AttributeError`: attribute access on an object lacking it. -/
  | attributeError
  /-- `FileExistsError` raised by `PosterFileStorageSession.commit`. -/
  | fileExistsError
  /-- `ValueError` raised by the path-containment check in
  `PosterFileStorageSession.commit`. -/
  | valueError
  deriving DecidableEq

/-! ## Domain entities (`app/core/entities.py`) -/

/-- `entities.Actor`: id and name. -/
structure Actor where
  id : Nat
  name : String
  deriving DecidableEq

/-- `entities.Director`: id and name. -/
structure Director where
  id : Nat
  name : String
  deriving DecidableEq

/-- `entities.Genre`: id and name. -/
structure Genre where
  id : Nat
  name : String
  deriving DecidableEq

/-- `entities.CountryOfProduction`: id and name. -/
structure CountryOfProduction where
  id : Nat
  name : String
  deriving DecidableEq

/-- `entities.Poster`: id, binary content and filename.  The repository
layer constructs posters whose `binary` and `filename` are Python `None`,
so both fields are optional here. -/
structure Poster where
  id : Nat
  binary : Option Bytes
  filename : Option String
  deriving DecidableEq

/-- `entities.Movie`.  `poster` is `Option Poster` because the read
service (`MovieService`) rebuilds movies with `poster=None`. -/
structure Movie where
  id : Nat
  title : String
  description : String
  published_date : String
  directors : List Director
  actors : List Actor
  genres : List Genre
  country_of_production : CountryOfProduction
  poster : Option Poster
  deriving DecidableEq

/-- A call to the `Movie` constructor, field by keyword argument.
`none` in a field means the call site omitted that keyword argument
(distinct from passing Python `None`, which for `poster` is
`some none`).  All nine parameters of `Movie.__init__` are required. -/
structure MovieCtorCall where
  id : Option Nat
  title : Option String
  description : Option String
  published_date : Option String
  directors : Option (List Director)
  actors : Option (List Actor)
  genres : Option (List Genre)
  country_of_production : Option CountryOfProduction
  poster : Option (Option Poster)
  deriving DecidableEq

/-- `entities.Movie.__init__`: every parameter is required (no defaults),
so a call that omits any of them raises `TypeError`. -/
def movieInit (c : MovieCtorCall) : Except PyErr Movie :=
  match c.id, c.title, c.description, c.published_date, c.directors,
        c.actors, c.genres, c.country_of_production, c.poster with
  | some i, some t, some d, some pd, some ds, some acts, some gs,
    some cp, some p =>
      .ok { id := i, title := t, description := d, published_date := pd,
            directors := ds, actors := acts, genres := gs,
            country_of_production := cp, poster := p }
  | _, _, _, _, _, _, _, _, _ => .error .typeError

/-! ## Factories (`app/core/factories.py`)

`_generate_uuid` is modelled by consuming a fresh identifier from the
caller-supplied counter. -/

/-- `factories.create_actor`. -/
def create_actor (freshId : Nat) (name : String) : Actor :=
  { id := freshId, name := name }

/-- `factories.create_director`. -/
def create_director (freshId : Nat) (name : String) : Director :=
  { id := freshId, name := name }

/-- `factories.create_genre`. -/
def create_genre (freshId : Nat) (name : String) : Genre :=
  { id := freshId, name := name }

/-- `factories.create_country_of_production`. -/
def create_country_of_production (freshId : Nat) (name : String) :
    CountryOfProduction :=
  { id := freshId, name := name }

/-- `factories.create_movie`: it calls the `Movie` constructor passing
id, title, description, published_date, country_of_production, genres,
actors and directors, but not `poster`, which `Movie.__init__` requires;
the underlying constructor call therefore raises `TypeError`. -/
def create_movie (freshId : Nat) (title description published_date : String)
    (country_of_production : CountryOfProduction) (genres : List Genre)
    (actors : List Actor) (directors : List Director) : Except PyErr Movie :=
  movieInit
    { id := some freshId, title := some title, description := some description,
      published_date := some published_date, directors := some directors,
      actors := some actors, genres := some genres,
      country_of_production := some country_of_production,
      poster := none }

/-! ## Persistence rows (`app/persistence/models.py`)

Rows are modelled as loaded ORM instances with their mapped relationship
objects attached (all relationships are declared `lazy="joined"`). -/

/-- A row of the `actors` table. -/
structure ActorRow where
  id : Nat
  name : String
  deriving DecidableEq

/-- A row of the `directors` table. -/
structure DirectorRow where
  id : Nat
  name : String
  deriving DecidableEq

/-- A row of the `genres` table. -/
structure GenreRow where
  id : Nat
  name : String
  deriving DecidableEq

/-- A row of the `countries_of_production` table. -/
structure CountryRow where
  id : Nat
  name : String
  deriving DecidableEq

/-- A `MovieModel` instance.  `models.py` maps columns id, title,
description, published_date, country_of_production_id and relationships
country_of_production / genres / actors / directors.  It declares **no**
poster column or relationship; `MovieRepository.add` (line 499) sets
`movie_model.poster` as a plain instance attribute.  The `poster` field
below models that dynamic attribute: `some pid` when it was set on this
instance (holding the attached poster model's id), `none` when absent —
in particular it is absent on every instance loaded from the database,
and reading it then raises `AttributeError`. -/
structure MovieRow where
  id : Nat
  title : String
  description : String
  published_date : String
  country_of_production : CountryRow
  genres : List GenreRow
  actors : List ActorRow
  directors : List DirectorRow
  poster : Option Nat
  deriving DecidableEq

/-- The committed relational state visible to repository queries. -/
structure DB where
  actors : List ActorRow
  directors : List DirectorRow
  genres : List GenreRow
  countries : List CountryRow
  movies : List MovieRow
  deriving DecidableEq

/-! ## Repositories (`app/persistence/repositories.py`) -/

/-- `ActorRepository._model_to_entity`. -/
def ActorRepository.model_to_entity (r : ActorRow) : Actor :=
  { id := r.id, name := r.name }

/-- `ActorRepository.find_by_name`: `select(ActorModel).where(name ==
name)`, first row or `None`. -/
def ActorRepository.find_by_name (db : DB) (name : String) : Option Actor :=
  (db.actors.find? (fun r => r.name == name)).map ActorRepository.model_to_entity

/-- `DirectorRepository._model_to_entity`. -/
def DirectorRepository.model_to_entity (r : DirectorRow) : Director :=
  { id := r.id, name := r.name }

/-- `DirectorRepository.find_by_name`. -/
def DirectorRepository.find_by_name (db : DB) (name : String) : Option Director :=
  (db.directors.find? (fun r => r.name == name)).map DirectorRepository.model_to_entity

/-- `GenreRepository._model_to_entity`. -/
def GenreRepository.model_to_entity (r : GenreRow) : Genre :=
  { id := r.id, name := r.name }

/-- `GenreRepository.find_by_name`. -/
def GenreRepository.find_by_name (db : DB) (name : String) : Option Genre :=
  (db.genres.find? (fun r => r.name == name)).map GenreRepository.model_to_entity

/-- `GenreRepository.find_all`. -/
def GenreRepository.find_all (db : DB) : List Genre :=
  db.genres.map GenreRepository.model_to_entity

/-- `CountryOfProductionRepository._model_to_entity`. -/
def CountryOfProductionRepository.model_to_entity (r : CountryRow) :
    CountryOfProduction :=
  { id := r.id, name := r.name }

/-- `CountryOfProductionRepository.find_by_name`. -/
def CountryOfProductionRepository.find_by_name (db : DB) (name : String) :
    Option CountryOfProduction :=
  (db.countries.find? (fun r => r.name == name)).map
    CountryOfProductionRepository.model_to_entity

/-- `CountryOfProductionRepository.find_all`. -/
def CountryOfProductionRepository.find_all (db : DB) : List CountryOfProduction :=
  db.countries.map CountryOfProductionRepository.model_to_entity

/-- `MovieRepository._model_to_entity_movie`: rebuilds the `Movie`
entity from a loaded row.  It reads `movie_model.poster.id` to build
`Poster(id=..., binary=None, filename=None)`; when the instance has no
`poster` attribute (every instance loaded from the database, since
`MovieModel` maps none) the access raises `AttributeError`. -/
def MovieRepository.model_to_entity_movie (r : MovieRow) : Except PyErr Movie :=
  match r.poster with
  | none => .error .attributeError
  | some pid =>
      .ok { id := r.id, title := r.title, description := r.description,
            published_date := r.published_date,
            country_of_production :=
              { id := r.country_of_production.id,
                name := r.country_of_production.name },
            genres := r.genres.map (fun g => { id := g.id, name := g.name }),
            directors := r.directors.map (fun d => { id := d.id, name := d.name }),
            actors := r.actors.map (fun a => { id := a.id, name := a.name }),
            poster := some { id := pid, binary := none, filename := none } }

/-- `MovieRepository.find_by_title_and_year`: first row matching both
title and published_date, converted to an entity (or `None`). -/
def MovieRepository.find_by_title_and_year (db : DB)
    (title published_date : String) : Except PyErr (Option Movie) :=
  match db.movies.find?
      (fun r => r.title == title && r.published_date == published_date) with
  | none => .ok none
  | some r =>
      match MovieRepository.model_to_entity_movie r with
      | .error e => .error e
      | .ok m => .ok (some m)

/-- Converts each loaded row in order, stopping at the first raised
exception (the body of `MovieRepository.find_all`'s list comprehension). -/
def MovieRepository.rowsToMovies : List MovieRow → Except PyErr (List Movie)
  | [] => .ok []
  | r :: rest =>
      match MovieRepository.model_to_entity_movie r with
      | .error e => .error e
      | .ok m =>
          match MovieRepository.rowsToMovies rest with
          | .error e => .error e
          | .ok ms => .ok (m :: ms)

/-- `MovieRepository.find_all`. -/
def MovieRepository.find_all (db : DB) : Except PyErr (List Movie) :=
  MovieRepository.rowsToMovies db.movies

/-- `MovieRepository.add`: it converts the movie and its related
entities to ORM models and merges them, but line 491 reads the local
variable `poster` (`poster = self.session.merge(poster)`) which is never
assigned before that line, so the call raises `UnboundLocalError` before
reaching `session.add`.  No commit happens on this path, so the durable
state is unchanged. -/
def MovieRepository.add (_db : DB) (_m : Movie) : Except PyErr DB :=
  .error .unboundLocalError

/-! ## Registration request (`app/api/schemas/movies.py`)

`MovieCreate` carries the title, description, published date, one
country, and lists of actors/directors/genres; each related item
(`ActorBase` etc.) consists of a name only, so the lists are modelled as
lists of names. -/

/-- `schemas.MovieCreate`. -/
structure MovieCreate where
  title : String
  published_date : String
  description : String
  country_of_production : String
  actors : List String
  directors : List String
  genres : List String
  deriving DecidableEq

/-- The errors `MovieUseCase.register` can raise
(`app/core/exceptions.py`, plus Python runtime errors). -/
inductive RegError where
  /-- `MovieAlreadyExistError`. -/
  | movieAlreadyExists
  /-- `InvalidGenreError`; carries the offending name and the names of
  all currently stored genres, which the raised message enumerates. -/
  | invalidGenre (name : String) (available : List String)
  /-- `InvalidCountryOfProductionError`; carries the offending name and
  the names of all stored countries, which the message enumerates. -/
  | invalidCountryOfProduction (name : String) (available : List String)
  /-- A Python runtime error escaping `register`. -/
  | pyError (e : PyErr)
  deriving DecidableEq

/-! ## Movie use case (`app/core/usecase/movies.py`) -/

/-- The actor-resolution loop of `MovieUseCase.register` (lines 50-61):
for each requested name in order, reuse the stored actor when
`find_by_name` hits, otherwise construct a fresh `Actor` via
`create_actor`.  Returns the resolved list and the advanced id supply. -/
def resolveActors (db : DB) (names : List String) (supply : Nat) :
    List Actor × Nat :=
  match names with
  | [] => ([], supply)
  | n :: rest =>
      match ActorRepository.find_by_name db n with
      | some a =>
          let (tail, s) := resolveActors db rest supply
          (a :: tail, s)
      | none =>
          let (tail, s) := resolveActors db rest (supply + 1)
          (create_actor supply n :: tail, s)

/-- The director-resolution loop of `MovieUseCase.register`
(lines 62-69), identical policy to actors. -/
def resolveDirectors (db : DB) (names : List String) (supply : Nat) :
    List Director × Nat :=
  match names with
  | [] => ([], supply)
  | n :: rest =>
      match DirectorRepository.find_by_name db n with
      | some d =>
          let (tail, s) := resolveDirectors db rest supply
          (d :: tail, s)
      | none =>
          let (tail, s) := resolveDirectors db rest (supply + 1)
          (create_director supply n :: tail, s)

/-- The genre-validation loop of `MovieUseCase.register` (lines 71-79):
reuse each stored genre; at the first absent name raise
`InvalidGenreError` whose message lists every stored genre name
(`genre_repository.find_all`). -/
def validateGenres (db : DB) (names : List String) :
    Except RegError (List Genre) :=
  match names with
  | [] => .ok []
  | n :: rest =>
      match GenreRepository.find_by_name db n with
      | some g =>
          match validateGenres db rest with
          | .error e => .error e
          | .ok gs => .ok (g :: gs)
      | none =>
          .error (.invalidGenre n ((GenreRepository.find_all db).map Genre.name))

/-- `MovieUseCase.register`.  Returns the raised error or the created
movie, together with the durable relational state after the call
(writes become durable only at `session.commit()`, which is reached
only after a successful `movie_repository.add`). -/
def register (db : DB) (supply : Nat) (mc : MovieCreate) :
    Except RegError Movie × DB :=
  match MovieRepository.find_by_title_and_year db mc.title mc.published_date with
  | .error e => (.error (.pyError e), db)
  | .ok (some _) => (.error .movieAlreadyExists, db)
  | .ok none =>
      let ra := resolveActors db mc.actors supply
      let rd := resolveDirectors db mc.directors ra.2
      match validateGenres db mc.genres with
      | .error e => (.error e, db)
      | .ok genres =>
          match CountryOfProductionRepository.find_by_name db
              mc.country_of_production with
          | none =>
              (.error (.invalidCountryOfProduction mc.country_of_production
                ((CountryOfProductionRepository.find_all db).map
                  CountryOfProduction.name)), db)
          | some country =>
              match create_movie rd.2 mc.title mc.description mc.published_date
                  country genres ra.1 rd.1 with
              | .error e => (.error (.pyError e), db)
              | .ok movie =>
                  match MovieRepository.add db movie with
                  | .error e => (.error (.pyError e), db)
                  | .ok db2 => (.ok movie, db2)

/-! ## Poster file storage (`app/persistence/unit_of_work.py`)

Filesystem paths are modelled as segment lists.  `pathlib`'s `/`
operator splits the right operand on slashes, drops empty and `"."`
segments, keeps `".."` segments unresolved, and replaces the whole path
when the right operand is absolute.  `Path.parent` drops the last
segment.  The store maps literal paths to file contents. -/

/-- A filesystem path as its list of segments (an absolute path starts
with the segment `"/"`). -/
abbrev FsPath := List String

/-- Splits a character list at `/`, accumulating the current segment. -/
def splitSegsAux : List Char → List Char → List String
  | [], acc => [String.mk acc.reverse]
  | c :: rest, acc =>
      if c = '/' then String.mk acc.reverse :: splitSegsAux rest []
      else splitSegsAux rest (c :: acc)

/-- Splits a string on `/`. -/
def splitOnSlash (s : String) : List String := splitSegsAux s.toList []

/-- The path segments contributed by the right operand of `pathlib`'s
`/`: split on slashes, dropping empty and `.` segments (which `pathlib`
normalises away; `..` is kept unresolved). -/
def pathSegs (filename : String) : List String :=
  (splitOnSlash filename).filter (fun s => s ≠ "" && s ≠ ".")

/-- Whether the filename is an absolute path. -/
def isAbsolute (filename : String) : Bool :=
  match filename.toList with
  | c :: _ => c = '/'
  | [] => false

/-- `base_dir / filename` in `pathlib`: an absolute right operand
replaces the whole path, otherwise its segments are appended. -/
def joinPath (base : FsPath) (filename : String) : FsPath :=
  if isAbsolute filename then "/" :: pathSegs filename
  else base ++ pathSegs filename

/-- The poster directory on disk: literal path to file contents. -/
abbrev FileStore := List (FsPath × Bytes)

/-- `Path.exists` / reading a file: lookup by literal path. -/
def FileStore.lookup : FileStore → FsPath → Option Bytes
  | [], _ => none
  | e :: rest, p => if e.1 == p then some e.2 else FileStore.lookup rest p

/-- Writing a (new) file. -/
def FileStore.write (fs : FileStore) (p : FsPath) (b : Bytes) : FileStore :=
  (p, b) :: fs

/-- `unit_of_work.PosterFileStorageSession`: the configured storage root
and the posters staged for write. -/
structure PosterFileStorageSession where
  base_dir : FsPath
  posters : List Poster
  deriving DecidableEq

/-- `PosterFileStorageSession.add`: stage a poster (append, no checks). -/
def PosterFileStorageSession.add (s : PosterFileStorageSession) (p : Poster) :
    PosterFileStorageSession :=
  { s with posters := s.posters ++ [p] }

/-- The write loop of `PosterFileStorageSession.commit`: for each staged
poster in order, compute `save_path = base_dir / filename`; raise
`FileExistsError` if it exists; then raise `ValueError` if
`save_path.parent != base_dir`; otherwise open the file and write the
bytes.  A `None` filename makes the path join raise `TypeError`; a
`None` binary makes `f.write` raise `TypeError` after `open` has already
created the (empty) file.  The loop stops at the first error, leaving
earlier writes on disk. -/
def flushPosters (base : FsPath) (fs : FileStore) :
    List Poster → FileStore × Option PyErr
  | [] => (fs, none)
  | p :: rest =>
      match p.filename with
      | none => (fs, some .typeError)
      | some fn =>
          let save := joinPath base fn
          if (FileStore.lookup fs save).isSome then (fs, some .fileExistsError)
          else if save.dropLast ≠ base then (fs, some .valueError)
          else
            match p.binary with
            | none => (FileStore.write fs save [], some .typeError)
            | some b => flushPosters base (FileStore.write fs save b) rest

/-- `PosterFileStorageSession.commit`: run the write loop; only on full
success is the staged list cleared (`self.posters = []` is reached only
when no exception was raised). -/
def PosterFileStorageSession.commit (s : PosterFileStorageSession)
    (fs : FileStore) : PosterFileStorageSession × FileStore × Option PyErr :=
  match flushPosters s.base_dir fs s.posters with
  | (fs2, none) => ({ s with posters := [] }, fs2, none)
  | (fs2, some e) => (s, fs2, some e)

/-- `PosterFileStorageSession.rollback`: discard staged posters. -/
def PosterFileStorageSession.rollback (s : PosterFileStorageSession) :
    PosterFileStorageSession :=
  { s with posters := [] }

/-- `PosterFileStorageSession.close`: discard staged posters. -/
def PosterFileStorageSession.close_ (s : PosterFileStorageSession) :
    PosterFileStorageSession :=
  { s with posters := [] }

/-- `PosterRepository.add`: delegates to the storage session's `add`
(stages the poster; performs no validation of the filename). -/
def PosterRepository.add (s : PosterFileStorageSession) (p : Poster) :
    PosterFileStorageSession :=
  PosterFileStorageSession.add s p

/-- `PosterRepository.find_by_id`: its body consists only of a
docstring, so the method always returns `None`. -/
def PosterRepository.find_by_id (_s : PosterFileStorageSession) (_i : Nat) :
    Option Poster :=
  none

/-- A Python-level call of `PosterRepository.find_by_id` passing its
single value by the given keyword: the signature declares the parameter
`id`, so a call using any other keyword (such as `movie_id`, used by
`MovieService`) raises `TypeError`. -/
def PosterRepository.find_by_id_call (s : PosterFileStorageSession)
    (keyword : String) (v : Nat) : Except PyErr (Option Poster) :=
  if keyword == "id" then .ok (PosterRepository.find_by_id s v)
  else .error .typeError

/-! ## Unit of work (`app/persistence/unit_of_work.py`) -/

/-- The relational session held by the unit of work, abstracted to its
durable (committed) writes and its pending (staged, uncommitted)
writes, each an opaque token. -/
structure DbSession where
  durable : List Nat
  pending : List Nat
  deriving DecidableEq

/-- `Session.commit`: pending writes become durable. -/
def DbSession.commit (s : DbSession) : DbSession :=
  { durable := s.durable ++ s.pending, pending := [] }

/-- `Session.rollback`: pending writes are discarded. -/
def DbSession.rollback (s : DbSession) : DbSession :=
  { s with pending := [] }

/-- `unit_of_work.UnitOfWork` after `__enter__`: the two transactional
resources, the poster directory contents, and whether each resource has
been released. -/
structure UnitOfWork where
  session : DbSession
  poster_file_storage_session : PosterFileStorageSession
  fs : FileStore
  sessionClosed : Bool
  posterSessionClosed : Bool
  deriving DecidableEq

/-- `UnitOfWork.commit`: `self.session.commit()` first, then
`self.poster_file_storage_session.commit()`.  A failure in the file
phase propagates, but the relational commit has already happened. -/
def UnitOfWork.commit (u : UnitOfWork) : UnitOfWork × Option PyErr :=
  let s2 := DbSession.commit u.session
  let r := PosterFileStorageSession.commit u.poster_file_storage_session u.fs
  ({ u with session := s2, poster_file_storage_session := r.1, fs := r.2.1 },
   r.2.2)

/-- `UnitOfWork.rollback`: roll back both resources. -/
def UnitOfWork.rollback (u : UnitOfWork) : UnitOfWork :=
  { u with session := DbSession.rollback u.session,
           poster_file_storage_session :=
             PosterFileStorageSession.rollback u.poster_file_storage_session }

/-- `UnitOfWork.close`: `session.close()` (releases the session,
discarding any still-pending writes) and the poster session's `close`. -/
def UnitOfWork.close_ (u : UnitOfWork) : UnitOfWork :=
  { u with session := { u.session with pending := [] },
           sessionClosed := true,
           poster_file_storage_session :=
             PosterFileStorageSession.close_ u.poster_file_storage_session,
           posterSessionClosed := true }

/-- `UnitOfWork.__exit__`: when an exception is pending, `rollback()`
then `close()` then (falling through) `close()` again; otherwise just
`close()`. -/
def UnitOfWork.exitScope (u : UnitOfWork) (excPending : Bool) : UnitOfWork :=
  if excPending then UnitOfWork.close_ (UnitOfWork.close_ (UnitOfWork.rollback u))
  else UnitOfWork.close_ u

/-! ## Read service (`app/core/services/movies.py`) -/

/-- Evaluates `movie.poster.id`: `AttributeError` when the poster
attribute holds `None`. -/
def posterIdOf (m : Movie) : Except PyErr Nat :=
  match m.poster with
  | none => .error .attributeError
  | some p => .ok p.id

/-- One iteration of the poster-fetching comprehension in
`MovieService.find_all`:
`self.poster_repository.find_by_id(movie_id=movie.poster.id)`. -/
def MovieService.fetchPoster (ps : PosterFileStorageSession) (m : Movie) :
    Except PyErr (Option Poster) :=
  match posterIdOf m with
  | .error e => .error e
  | .ok i => PosterRepository.find_by_id_call ps "movie_id" i

/-- The poster-fetching comprehension of `MovieService.find_all`,
stopping at the first raised exception. -/
def MovieService.fetchPosters (ps : PosterFileStorageSession) :
    List Movie → Except PyErr (List (Option Poster))
  | [] => .ok []
  | m :: rest =>
      match MovieService.fetchPoster ps m with
      | .error e => .error e
      | .ok p =>
          match MovieService.fetchPosters ps rest with
          | .error e => .error e
          | .ok tail => .ok (p :: tail)

/-- `MovieService.find_all`: read all movies, fetch each poster by the
movie's poster id, and rebuild each movie with the fetched poster. -/
def MovieService.find_all (db : DB) (ps : PosterFileStorageSession) :
    Except PyErr (List Movie) :=
  match MovieRepository.find_all db with
  | .error e => .error e
  | .ok movies =>
      match MovieService.fetchPosters ps movies with
      | .error e => .error e
      | .ok posters =>
          .ok ((movies.zip posters).map (fun mp => { mp.1 with poster := mp.2 }))

/-- `MovieService.find_by_title_and_year`: look the movie up, then
fetch its poster and rebuild it.  When no movie matches,
`movie.poster.id` is evaluated on `None` and raises `AttributeError`. -/
def MovieService.find_by_title_and_year (db : DB)
    (ps : PosterFileStorageSession) (title published_date : String) :
    Except PyErr Movie :=
  match MovieRepository.find_by_title_and_year db title published_date with
  | .error e => .error e
  | .ok none => .error .attributeError
  | .ok (some m) =>
      match MovieService.fetchPoster ps m with
      | .error e => .error e
      | .ok p => .ok { m with poster := p }

/-! ## Declared schema (`app/persistence/models.py`)

Transcription of each model's column and table-constraint declarations,
for reasoning about what uniqueness the schema enforces. -/

/-- A declared column: its name and whether it carries `unique=True` or
`primary_key=True`. -/
structure ColumnDef where
  cname : String
  unique : Bool
  primaryKey : Bool
  deriving DecidableEq

/-- A declared table: name, columns, and the column-name tuples of its
`UniqueConstraint` table arguments. -/
structure TableDef where
  tname : String
  columns : List ColumnDef
  uniqueConstraints : List (List String)
  deriving DecidableEq

/-- `ActorModel` (`__tablename__ = "actors"`): `name` is declared as
`mapped_column(String(255))`, with no `unique=True`. -/
def actorsTable : TableDef :=
  { tname := "actors",
    columns := [{ cname := "id", unique := false, primaryKey := true },
                { cname := "name", unique := false, primaryKey := false },
                { cname := "created_at", unique := false, primaryKey := false },
                { cname := "updated_at", unique := false, primaryKey := false }],
    uniqueConstraints := [] }

/-- `DirectorModel` (`directors`): `name` declared `unique=True`. -/
def directorsTable : TableDef :=
  { tname := "directors",
    columns := [{ cname := "id", unique := false, primaryKey := true },
                { cname := "name", unique := true, primaryKey := false },
                { cname := "created_at", unique := false, primaryKey := false },
                { cname := "updated_at", unique := false, primaryKey := false }],
    uniqueConstraints := [] }

/-- `GenreModel` (`genres`): `name` declared `unique=True`. -/
def genresTable : TableDef :=
  { tname := "genres",
    columns := [{ cname := "id", unique := false, primaryKey := true },
                { cname := "name", unique := true, primaryKey := false },
                { cname := "created_at", unique := false, primaryKey := false },
                { cname := "updated_at", unique := false, primaryKey := false }],
    uniqueConstraints := [] }

/-- `CountryOfProductionModel` (`countries_of_production`): `name`
declared `unique=True`. -/
def countriesTable : TableDef :=
  { tname := "countries_of_production",
    columns := [{ cname := "id", unique := false, primaryKey := true },
                { cname := "name", unique := true, primaryKey := false },
                { cname := "created_at", unique := false, primaryKey := false },
                { cname := "updated_at", unique := false, primaryKey := false }],
    uniqueConstraints := [] }

/-- `MovieModel` (`movies`): columns plus
`UniqueConstraint("title", "published_date")` in `__table_args__`. -/
def moviesTable : TableDef :=
  { tname := "movies",
    columns := [{ cname := "id", unique := false, primaryKey := true },
                { cname := "title", unique := false, primaryKey := false },
                { cname := "description", unique := false, primaryKey := false },
                { cname := "published_date", unique := false, primaryKey := false },
                { cname := "country_of_production_id", unique := false,
                  primaryKey := false },
                { cname := "created_at", unique := false, primaryKey := false },
                { cname := "updated_at", unique := false, primaryKey := false }],
    uniqueConstraints := [["title", "published_date"]] }

/-- Whether the declared schema forces the `name` column of a table to
be unique: either the column carries `unique=True` or a single-column
`UniqueConstraint` on `name` exists. -/
def TableDef.nameUnique (t : TableDef) : Bool :=
  t.columns.any (fun c => c.cname == "name" && c.unique) ||
    t.uniqueConstraints.contains ["name"]

/-- Whether the table declares a `UniqueConstraint` over exactly the
given columns. -/
def TableDef.hasUniqueConstraint (t : TableDef) (cols : List String) : Bool :=
  t.uniqueConstraints.contains cols

/-! ## Concrete scenarios used by the claim theorems -/

/-- Stored state for C1: genres and country pre-seeded (as in the
repository's own use-case test), no movies/actors/directors yet. -/
def c1Db : DB :=
  { actors := [], directors := [],
    genres := [⟨1, "Action"⟩, ⟨2, "Adventure"⟩, ⟨3, "Fantasy"⟩],
    countries := [⟨4, "USA"⟩], movies := [] }

/-- A valid registration request for C1. -/
def c1Req : MovieCreate :=
  { title := "The Avengers endgame", published_date := "2019-04-26",
    description := "endgame", country_of_production := "USA",
    actors := ["Robert Downey Jr.", "Chris Evans", "Mark Ruffalo"],
    directors := ["Joss Whedon"],
    genres := ["Action", "Adventure", "Fantasy"] }

/-- A movie row as loaded from the database (no dynamically attached
poster attribute), for C3. -/
def c3Row : MovieRow :=
  { id := 1, title := "Iron Man", description := "Tony Stark",
    published_date := "2008-05-02",
    country_of_production := ⟨2, "USA"⟩, genres := [⟨3, "Action"⟩],
    actors := [⟨4, "Robert Downey Jr."⟩], directors := [⟨5, "John Favreau"⟩],
    poster := none }

/-- Stored state for C3: one movie already stored. -/
def c3Db : DB :=
  { actors := [⟨4, "Robert Downey Jr."⟩], directors := [⟨5, "John Favreau"⟩],
    genres := [⟨3, "Action"⟩], countries := [⟨2, "USA"⟩], movies := [c3Row] }

/-- A request duplicating the stored movie's (title, published_date). -/
def c3Req : MovieCreate :=
  { title := "Iron Man", published_date := "2008-05-02",
    description := "Tony Stark", country_of_production := "USA",
    actors := ["Robert Downey Jr."], directors := ["John Favreau"],
    genres := ["Action"] }

/-- Stored state for C5: one actor already stored. -/
def c5Db : DB :=
  { actors := [⟨1, "Robert Downey Jr."⟩], directors := [],
    genres := [⟨2, "Action"⟩], countries := [⟨3, "USA"⟩], movies := [] }

/-- A request for C5 naming one stored and one new actor. -/
def c5Req : MovieCreate :=
  { title := "Iron Man", published_date := "2008-05-02",
    description := "Tony Stark", country_of_production := "USA",
    actors := ["Robert Downey Jr.", "Chris Evans"],
    directors := ["John Favreau"], genres := ["Action"] }

/-- A movie row whose instance happens to carry the dynamic poster
attribute (id 7), for C6: the relational read then succeeds and the
service reaches its poster-fetching call. -/
def c6Row : MovieRow :=
  { id := 1, title := "Avengers1", description := "Avengers1 description",
    published_date := "2012-04-11",
    country_of_production := ⟨2, "USA"⟩, genres := [⟨3, "Action"⟩],
    actors := [⟨4, "Robert Downey Jr."⟩], directors := [⟨5, "Joss Whedon"⟩],
    poster := some 7 }

/-- Stored state for C6. -/
def c6Db : DB :=
  { actors := [⟨4, "Robert Downey Jr."⟩], directors := [⟨5, "Joss Whedon"⟩],
    genres := [⟨3, "Action"⟩], countries := [⟨2, "USA"⟩], movies := [c6Row] }

/-- An (empty) poster storage session for C6. -/
def c6Ps : PosterFileStorageSession := { base_dir := ["posters"], posters := [] }

/-- The poster staged for C2's commit, whose destination already exists. -/
def c2Poster : Poster := { id := 9, binary := some [2], filename := some "a.jpg" }

/-- A unit of work for C2 with one pending relational write (token 7)
and one staged poster colliding with an existing file. -/
def c2U : UnitOfWork :=
  { session := { durable := [], pending := [7] },
    poster_file_storage_session := { base_dir := ["posters"],
                                     posters := [c2Poster] },
    fs := [(["posters", "a.jpg"], [1])],
    sessionClosed := false, posterSessionClosed := false }

/-! ## Claim theorems -/

/-- C1: the claim says a validated registration request constructs a
fresh Movie, stages it, commits and returns it.  Evaluating the code on
a request that passes the uniqueness check, actor/director resolution
and genre/country validation shows `register` instead raises
`TypeError`: `factories.create_movie` calls the `Movie` constructor
without its required `poster` argument.  (`MovieRepository.add` is never
even reached; it would itself raise `UnboundLocalError` on the local
`poster` read before assignment.)  The durable state is unchanged and no
movie is returned, contradicting the claim and the repository's own
use-case test. -/
theorem claim_C1_register_crashes :
    register c1Db 100 c1Req = (.error (.pyError .typeError), c1Db) := by
  rfl

/-- C2 counterexample: committing a unit of work holding one staged
relational write and one staged poster whose destination file already
exists makes the file-storage phase fail with `FileExistsError`, yet the
relational write has become durable — refuting the claim that the
relational phase's changes do not become durable when the file phase
fails. -/
theorem claim_C2_counterexample :
    (UnitOfWork.commit c2U).2 = some .fileExistsError ∧
      (UnitOfWork.commit c2U).1.session.durable = [7] := by
  refine ⟨?_, rfl⟩
  decide

/-- C2 (amended): `UnitOfWork.commit` applies the relational commit
first and unconditionally — the pending relational writes become
durable — and then runs the file-storage phase; in particular whenever
the file-storage phase fails, the relational changes have nevertheless
become durable.  (No two-phase validation is performed before the
relational commit.) -/
theorem claim_C2_amended (u : UnitOfWork) :
    ((UnitOfWork.commit u).1.session.durable
        = u.session.durable ++ u.session.pending ∧
      (UnitOfWork.commit u).1.session.pending = []) ∧
    (∀ e, (UnitOfWork.commit u).2 = some e →
      (UnitOfWork.commit u).1.session.durable
        = u.session.durable ++ u.session.pending) :=
  ⟨⟨rfl, rfl⟩, fun _ _ => rfl⟩

/-- C2 witness: the amended theorem applied to the colliding-commit
state `c2U`, discharging the failure hypothesis there. -/
theorem claim_C2_witness :
    (UnitOfWork.commit c2U).1.session.durable = [] ++ [7] :=
  (claim_C2_amended c2U).2 PyErr.fileExistsError (by decide)

/-- C3: the claim says a duplicate (title, published_date) registration
fails with `MovieAlreadyExists`.  Evaluating the code on a stored
duplicate shows the uniqueness lookup itself raises `AttributeError`:
`MovieRepository.find_by_title_and_year` converts the found row via
`_model_to_entity_movie`, which reads `movie_model.poster.id`, and
`MovieModel` declares no poster attribute, so `register` propagates
`AttributeError` instead of `MovieAlreadyExistError` (the repository's
own test expects the latter).  The stored state is unchanged either
way. -/
theorem claim_C3_duplicate_check_crashes :
    MovieRepository.find_by_title_and_year c3Db "Iron Man" "2008-05-02"
        = .error .attributeError ∧
      register c3Db 50 c3Req = (.error (.pyError .attributeError), c3Db) :=
  ⟨rfl, rfl⟩

/-- C5: actor resolution is indeed create-if-absent and order-preserving
— on the concrete request the stored name is reused as the same entity
(same id 1) and the absent name yields a fresh entity (new id 10), in
request order — but the claim's consequence fails: the registration that
should persist the movie (and hence the shared actor row) instead raises
`TypeError` in `create_movie`, so no Actor row is ever persisted and the
stored state is unchanged. -/
theorem claim_C5_resolution_but_no_persistence :
    resolveActors c5Db ["Robert Downey Jr.", "Chris Evans"] 10
        = ([{ id := 1, name := "Robert Downey Jr." },
            { id := 10, name := "Chris Evans" }], 11) ∧
      register c5Db 10 c5Req = (.error (.pyError .typeError), c5Db) :=
  ⟨rfl, rfl⟩

/-- C6: the claim says `MovieService.find_all` returns every movie with
its poster reattached and `find_by_title_and_year` returns a movie or a
not-found signal.  Evaluating the code: with one stored movie both
operations raise `TypeError`, because the service calls
`PosterRepository.find_by_id` with the keyword `movie_id` while the
method's parameter is named `id` (and the method's body is empty — it
could only ever return `None`); and on a missing title the service
evaluates `movie.poster.id` on `None` and raises `AttributeError`
instead of signalling not-found. -/
theorem claim_C6_service_crashes :
    MovieService.find_all c6Db c6Ps = .error .typeError ∧
      MovieService.find_by_title_and_year c6Db c6Ps "Avengers1" "2012-04-11"
        = .error .typeError ∧
      MovieService.find_by_title_and_year c6Db c6Ps "Nothing" "2012-04-11"
        = .error .attributeError :=
  ⟨rfl, rfl, rfl⟩

/-- C8 counterexample: the declared schema does not enforce a unique
name on every one of the four tables — `ActorModel.name` is declared
without `unique=True`, so the conjunction claimed (all four tables
unique by name) is false. -/
theorem claim_C8_counterexample :
    ¬ (actorsTable.nameUnique = true ∧ directorsTable.nameUnique = true ∧
        genresTable.nameUnique = true ∧ countriesTable.nameUnique = true) := by
  decide

/-- C8 (amended): the schema declares unique `name` columns for
directors, genres and countries, and a unique (title, published_date)
constraint on movies, but the actors table's `name` column carries no
uniqueness constraint. -/
theorem claim_C8_amended :
    directorsTable.nameUnique = true ∧ genresTable.nameUnique = true ∧
      countriesTable.nameUnique = true ∧ actorsTable.nameUnique = false ∧
      moviesTable.hasUniqueConstraint ["title", "published_date"] = true := by
  decide

/-- C9: on scope exit — with or without a pending exception, and
whatever commits or rollbacks happened before (the state `u` is
arbitrary) — `UnitOfWork.__exit__` invokes `close`, which releases both
the relational session and the poster file-storage session. -/
theorem claim_C9_exit_releases_both (u : UnitOfWork) (excPending : Bool) :
    (UnitOfWork.exitScope u excPending).sessionClosed = true ∧
      (UnitOfWork.exitScope u excPending).posterSessionClosed = true := by
  cases excPending <;> exact ⟨rfl, rfl⟩

/-- A unit of work mid-operation, for the C9 witness. -/
def c9U : UnitOfWork :=
  { session := { durable := [1], pending := [2] },
    poster_file_storage_session := { base_dir := ["posters"], posters := [] },
    fs := [], sessionClosed := false, posterSessionClosed := false }

/-- C9 witness: the theorem applied to a concrete open unit of work on
the exceptional exit path. -/
theorem claim_C9_witness :
    (UnitOfWork.exitScope c9U true).sessionClosed = true ∧
      (UnitOfWork.exitScope c9U true).posterSessionClosed = true :=
  claim_C9_exit_releases_both c9U true

/-! ### Lemmas for C4 -/

/-- The list of names carried by `InvalidGenreError` is exactly the
stored genre names. -/
theorem genre_names_eq (db : DB) :
    (GenreRepository.find_all db).map Genre.name = db.genres.map GenreRow.name := by
  rw [GenreRepository.find_all, List.map_map]
  rfl

/-- The list of names carried by `InvalidCountryOfProductionError` is
exactly the stored country names. -/
theorem country_names_eq (db : DB) :
    (CountryOfProductionRepository.find_all db).map CountryOfProduction.name
      = db.countries.map CountryRow.name := by
  rw [CountryOfProductionRepository.find_all, List.map_map]
  rfl

/-- If some requested genre name is absent from the genre table, the
validation loop raises `InvalidGenreError` naming a missing genre and
enumerating every stored genre name. -/
theorem validateGenres_error_of_missing (db : DB) :
    ∀ names : List String,
      (∃ g, g ∈ names ∧ GenreRepository.find_by_name db g = none) →
      ∃ g2, g2 ∈ names ∧ GenreRepository.find_by_name db g2 = none ∧
        validateGenres db names =
          .error (.invalidGenre g2 ((GenreRepository.find_all db).map Genre.name)) := by
  intro names
  induction names with
  | nil => rintro ⟨g, hg, _⟩; cases hg
  | cons n rest ih =>
      rintro ⟨g, hg, hnone⟩
      cases hfind : GenreRepository.find_by_name db n with
      | none =>
          exact ⟨n, List.mem_cons_self _ _, hfind, by simp [validateGenres, hfind]⟩
      | some gg =>
          have hgrest : g ∈ rest := by
            rcases List.mem_cons.mp hg with h | h
            · subst h; rw [hfind] at hnone; cases hnone
            · exact h
          obtain ⟨g2, hmem, hn2, heq⟩ := ih ⟨g, hgrest, hnone⟩
          exact ⟨g2, List.mem_cons_of_mem _ hmem, hn2,
            by simp [validateGenres, hfind, heq]⟩

/-- If every requested genre name is present, the validation loop
succeeds. -/
theorem validateGenres_ok_of_all_present (db : DB) :
    ∀ names : List String,
      (∀ g ∈ names, GenreRepository.find_by_name db g ≠ none) →
      ∃ gs, validateGenres db names = .ok gs := by
  intro names
  induction names with
  | nil => intro _; exact ⟨[], rfl⟩
  | cons n rest ih =>
      intro h
      cases hfind : GenreRepository.find_by_name db n with
      | none => exact absurd hfind (h n (List.mem_cons_self _ _))
      | some g =>
          obtain ⟨gs, hgs⟩ := ih (fun x hx => h x (List.mem_cons_of_mem _ hx))
          exact ⟨g :: gs, by simp [validateGenres, hfind, hgs]⟩

/-- C4: provided the uniqueness check of step 1 passes (no stored movie
matches the request's title and published date), a request naming a
genre absent from the genre table makes `register` fail with
`InvalidGenreError` carrying a missing genre name and the names of all
stored genres, and a request whose genres are all valid but whose
country is absent makes it fail with `InvalidCountryOfProductionError`
carrying the requested name and the names of all stored countries; in
both cases the durable state is returned unchanged — no genre, country,
actor, director or movie row is created. -/
theorem claim_C4_vocabulary_validation (db : DB) (supply : Nat)
    (mc : MovieCreate)
    (hnodup : MovieRepository.find_by_title_and_year db mc.title
        mc.published_date = .ok none) :
    ((∃ g, g ∈ mc.genres ∧ GenreRepository.find_by_name db g = none) →
      ∃ g2, g2 ∈ mc.genres ∧ GenreRepository.find_by_name db g2 = none ∧
        register db supply mc =
          (.error (.invalidGenre g2 (db.genres.map GenreRow.name)), db)) ∧
    ((∀ g ∈ mc.genres, GenreRepository.find_by_name db g ≠ none) →
      CountryOfProductionRepository.find_by_name db mc.country_of_production
          = none →
      register db supply mc =
        (.error (.invalidCountryOfProduction mc.country_of_production
          (db.countries.map CountryRow.name)), db)) := by
  constructor
  · intro hmiss
    obtain ⟨g2, hmem, hnone, heq⟩ := validateGenres_error_of_missing db mc.genres hmiss
    refine ⟨g2, hmem, hnone, ?_⟩
    rw [← genre_names_eq]
    simp only [register, hnodup, heq]
  · intro hall hcountry
    obtain ⟨gs, hgs⟩ := validateGenres_ok_of_all_present db mc.genres hall
    rw [← country_names_eq]
    simp only [register, hnodup, hgs, hcountry]

/-- Stored state for the C4 witness: genre "Action" and country "USA"
pre-seeded, nothing else. -/
def c4Db : DB :=
  { actors := [], directors := [], genres := [⟨1, "Action"⟩],
    countries := [⟨2, "USA"⟩], movies := [] }

/-- A request naming the unknown genre "Horror". -/
def c4ReqG : MovieCreate :=
  { title := "X", published_date := "2020-01-01", description := "d",
    country_of_production := "USA", actors := [], directors := [],
    genres := ["Horror"] }

/-- A request with valid genres but the unknown country "Atlantis". -/
def c4ReqC : MovieCreate :=
  { title := "X", published_date := "2020-01-01", description := "d",
    country_of_production := "Atlantis", actors := [], directors := [],
    genres := ["Action"] }

/-- C4 witness: the theorem applied to the two concrete invalid
requests, discharging all hypotheses there. -/
theorem claim_C4_witness :
    (∃ g2, g2 ∈ c4ReqG.genres ∧ GenreRepository.find_by_name c4Db g2 = none ∧
      register c4Db 0 c4ReqG =
        (.error (.invalidGenre g2 (c4Db.genres.map GenreRow.name)), c4Db)) ∧
    register c4Db 0 c4ReqC =
      (.error (.invalidCountryOfProduction "Atlantis"
        (c4Db.countries.map CountryRow.name)), c4Db) :=
  ⟨(claim_C4_vocabulary_validation c4Db 0 c4ReqG rfl).1
      ⟨"Horror", by simp [c4ReqG], rfl⟩,
    (claim_C4_vocabulary_validation c4Db 0 c4ReqC rfl).2 (by decide) rfl⟩

/-! ### Lemmas for C7 -/

/-- Looking a path up after a write. -/
theorem FileStore.lookup_write (fs : FileStore) (p q : FsPath) (b : Bytes) :
    FileStore.lookup (FileStore.write fs p b) q =
      if p == q then some b else FileStore.lookup fs q := rfl

/-- The storage session used by the C7 counterexample. -/
def c7S : PosterFileStorageSession := { base_dir := ["posters"], posters := [] }

/-- A poster whose filename escapes the storage root. -/
def c7Evil : Poster :=
  { id := 1, binary := some [1], filename := some "../evil.jpg" }

/-- C7 counterexample: the filename `../evil.jpg` resolves outside the
configured root, yet `PosterRepository.add` performs no validation at
all — it stages the poster without rejecting it.  (Containment is only
checked later, inside `PosterFileStorageSession.commit`.) -/
theorem claim_C7_counterexample :
    (joinPath c7S.base_dir "../evil.jpg").dropLast ≠ c7S.base_dir ∧
      PosterRepository.add c7S c7Evil
        = { base_dir := ["posters"], posters := [c7Evil] } := by
  exact ⟨by decide, rfl⟩

/-- C7 (amended): path containment and overwrite protection are
enforced at commit time, not in `add`.  For any storage root, staged
posters and initial directory contents, the commit write loop
(1) never changes the contents of a pre-existing file (no overwrite:
on a collision it raises before writing),
(2) only ever creates files directly under the configured root (the
containment check precedes every write, so no bytes land outside), and
(3) raises an error whenever some staged poster's destination already
existed. -/
theorem claim_C7_commit_containment (base : FsPath) :
    ∀ (posters : List Poster) (fs : FileStore),
      (∀ p b, FileStore.lookup fs p = some b →
        FileStore.lookup (flushPosters base fs posters).1 p = some b) ∧
      (∀ p, FileStore.lookup fs p = none →
        (FileStore.lookup (flushPosters base fs posters).1 p).isSome = true →
        p.dropLast = base) ∧
      (∀ po fn, po ∈ posters → po.filename = some fn →
        (FileStore.lookup fs (joinPath base fn)).isSome = true →
        ((flushPosters base fs posters).2).isSome = true) := by
  intro posters
  induction posters with
  | nil =>
      intro fs
      refine ⟨fun p b h => h, fun p h1 h2 => ?_, fun po fn hmem _ _ => ?_⟩
      · rw [flushPosters] at h2
        rw [h1] at h2
        cases h2
      · cases hmem
  | cons p rest ih =>
      intro fs
      cases hfn : p.filename with
      | none =>
          have hred : flushPosters base fs (p :: rest) = (fs, some .typeError) := by
            simp [flushPosters, hfn]
          rw [hred]
          refine ⟨fun q b h => h, fun q h1 h2 => ?_, fun _ _ _ _ _ => rfl⟩
          rw [h1] at h2
          cases h2
      | some fn =>
          by_cases hex : (FileStore.lookup fs (joinPath base fn)).isSome = true
          · have hred : flushPosters base fs (p :: rest)
                = (fs, some .fileExistsError) := by
              simp [flushPosters, hfn, hex]
            rw [hred]
            refine ⟨fun q b h => h, fun q h1 h2 => ?_, fun _ _ _ _ _ => rfl⟩
            rw [h1] at h2
            cases h2
          · have hexn : FileStore.lookup fs (joinPath base fn) = none := by
              cases h : FileStore.lookup fs (joinPath base fn) with
              | none => rfl
              | some b => rw [h] at hex; simp at hex
            by_cases hct : (joinPath base fn).dropLast = base
            · cases hb : p.binary with
              | none =>
                  have hred : flushPosters base fs (p :: rest)
                      = (FileStore.write fs (joinPath base fn) [],
                         some .typeError) := by
                    simp [flushPosters, hfn, hexn, hct, hb]
                  rw [hred]
                  refine ⟨fun q b h => ?_, fun q h1 h2 => ?_, fun _ _ _ _ _ => rfl⟩
                  · rw [FileStore.lookup_write, if_neg, h]
                    intro hpq
                    rw [beq_iff_eq] at hpq
                    rw [hpq, h] at hexn
                    cases hexn
                  · rw [FileStore.lookup_write] at h2
                    by_cases hqs : joinPath base fn = q
                    · rw [← hqs]; exact hct
                    · rw [if_neg (by simpa using hqs), h1] at h2
                      cases h2
              | some bts =>
                  have hred : flushPosters base fs (p :: rest)
                      = flushPosters base
                          (FileStore.write fs (joinPath base fn) bts) rest := by
                    simp [flushPosters, hfn, hexn, hct, hb]
                  obtain ⟨ih1, ih2, ih3⟩ :=
                    ih (FileStore.write fs (joinPath base fn) bts)
                  refine ⟨fun q b h => ?_, fun q h1 h2 => ?_,
                    fun po fn2 hmem hfn2 hlook => ?_⟩
                  · rw [hred]
                    apply ih1
                    rw [FileStore.lookup_write, if_neg, h]
                    intro hpq
                    rw [beq_iff_eq] at hpq
                    rw [hpq, h] at hexn
                    cases hexn
                  · rw [hred] at h2
                    by_cases hqs : joinPath base fn = q
                    · rw [← hqs]; exact hct
                    · apply ih2 q _ h2
                      rw [FileStore.lookup_write, if_neg (by simpa using hqs)]
                      exact h1
                  · rw [hred]
                    rcases List.mem_cons.mp hmem with hpo | hpo
                    · subst hpo
                      rw [hfn] at hfn2
                      cases hfn2
                      rw [hexn] at hlook
                      cases hlook
                    · apply ih3 po fn2 hpo hfn2
                      rw [FileStore.lookup_write]
                      by_cases hqs : joinPath base fn = joinPath base fn2
                      · rw [if_pos (by simpa using hqs)]; rfl
                      · rw [if_neg (by simpa using hqs)]
                        exact hlook
            · have hred : flushPosters base fs (p :: rest)
                  = (fs, some .valueError) := by
                simp [flushPosters, hfn, hexn, hct]
              rw [hred]
              refine ⟨fun q b h => h, fun q h1 h2 => ?_, fun _ _ _ _ _ => rfl⟩
              rw [h1] at h2
              cases h2

/-- Initial directory contents for the C7 witness: one existing file. -/
def c7Fs : FileStore := [(["posters", "old.jpg"], [1])]

/-- A staged poster colliding with the existing file. -/
def c7Dup : Poster :=
  { id := 2, binary := some [2], filename := some "old.jpg" }

/-- C7 witness: the amended theorem applied to the concrete colliding
commit — the pre-existing file keeps its contents and the commit
signals an error. -/
theorem claim_C7_witness :
    FileStore.lookup (flushPosters ["posters"] c7Fs [c7Dup]).1
        ["posters", "old.jpg"] = some [1] ∧
      ((flushPosters ["posters"] c7Fs [c7Dup]).2).isSome = true :=
  ⟨(claim_C7_commit_containment ["posters"] [c7Dup] c7Fs).1
      ["posters", "old.jpg"] [1] rfl,
    (claim_C7_commit_containment ["posters"] [c7Dup] c7Fs).2.2
      c7Dup "old.jpg" (List.mem_singleton.mpr rfl) rfl (by decide)⟩

/-! ### Lemmas for C10 -/

/-- Whenever `_model_to_entity_movie` returns a movie, that movie's
poster has `None` binary content and `None` filename. -/
theorem model_to_entity_poster (r : MovieRow) (m : Movie)
    (h : MovieRepository.model_to_entity_movie r = .ok m) :
    ∃ pid, m.poster = some { id := pid, binary := none, filename := none } := by
  cases hr : r.poster with
  | none => rw [MovieRepository.model_to_entity_movie, hr] at h; cases h
  | some pid =>
      rw [MovieRepository.model_to_entity_movie, hr] at h
      cases h
      exact ⟨pid, rfl⟩

/-- Every movie produced by the conversion loop of
`MovieRepository.find_all` comes from some row via
`_model_to_entity_movie`. -/
theorem rowsToMovies_mem :
    ∀ (rows : List MovieRow) (ms : List Movie),
      MovieRepository.rowsToMovies rows = .ok ms →
      ∀ m ∈ ms, ∃ r, MovieRepository.model_to_entity_movie r = .ok m := by
  intro rows
  induction rows with
  | nil =>
      intro ms h m hm
      rw [MovieRepository.rowsToMovies] at h
      cases h
      cases hm
  | cons r rest ih =>
      intro ms h m hm
      cases h1 : MovieRepository.model_to_entity_movie r with
      | error e => rw [MovieRepository.rowsToMovies, h1] at h; cases h
      | ok m0 =>
          cases h2 : MovieRepository.rowsToMovies rest with
          | error e => rw [MovieRepository.rowsToMovies, h1, h2] at h; cases h
          | ok tail =>
              rw [MovieRepository.rowsToMovies, h1, h2] at h
              cases h
              rcases List.mem_cons.mp hm with hm0 | hm2
              · subst hm0; exact ⟨r, h1⟩
              · exact ih tail h2 m hm2

/-- C10: every Movie entity reconstructed from the relational store —
by `MovieRepository.find_all` or `find_by_title_and_year` — carries a
poster whose binary content and filename are both `None`; only the
poster identifier comes back from a relational read. -/
theorem claim_C10_relational_reads_null_poster (db : DB) :
    (∀ ms m, MovieRepository.find_all db = .ok ms → m ∈ ms →
      ∃ pid, m.poster = some { id := pid, binary := none, filename := none }) ∧
    (∀ t pd m,
      MovieRepository.find_by_title_and_year db t pd = .ok (some m) →
      ∃ pid, m.poster = some { id := pid, binary := none, filename := none }) := by
  constructor
  · intro ms m hall hm
    obtain ⟨r, hr⟩ := rowsToMovies_mem db.movies ms hall m hm
    exact model_to_entity_poster r m hr
  · intro t pd m h
    rw [MovieRepository.find_by_title_and_year] at h
    cases hf : db.movies.find?
        (fun r => r.title == t && r.published_date == pd) with
    | none => rw [hf] at h; cases h
    | some r =>
        rw [hf] at h
        cases h1 : MovieRepository.model_to_entity_movie r with
        | error e => simp [h1] at h
        | ok m2 =>
            simp [h1] at h
            subst h
            exact model_to_entity_poster r m2 h1

/-- A stored movie row whose instance carries the dynamic poster
attribute, for the C10 witness. -/
def c10Row : MovieRow :=
  { id := 1, title := "T", description := "D", published_date := "2000-01-01",
    country_of_production := ⟨2, "USA"⟩, genres := [], actors := [],
    directors := [], poster := some 3 }

/-- Stored state for the C10 witness. -/
def c10Db : DB :=
  { actors := [], directors := [], genres := [], countries := [⟨2, "USA"⟩],
    movies := [c10Row] }

/-- The entity `find_all` reconstructs from `c10Row`. -/
def c10Movie : Movie :=
  { id := 1, title := "T", description := "D", published_date := "2000-01-01",
    directors := [], actors := [], genres := [],
    country_of_production := ⟨2, "USA"⟩,
    poster := some { id := 3, binary := none, filename := none } }

/-- C10 witness: the theorem applied to the concrete store, discharging
its hypotheses there. -/
theorem claim_C10_witness :
    ∃ pid, c10Movie.poster
        = some { id := pid, binary := none, filename := none } :=
  (claim_C10_relational_reads_null_poster c10Db).1 [c10Movie] c10Movie rfl
    (List.mem_singleton.mpr rfl)

end Netflix
